import Mathlib

/-!
Shallow embedding of the social-post gallery core
(`SocialPost` / `Author` entities, `LocalStorageService`,
`SocialInteractionService`, `SocialPostRepository`) and proofs of the
specification claims about it.

Conventions of the embedding:
* JavaScript numbers that only ever hold integers are modelled as `Int`
  (counters can in principle go negative via the rollback decrement).
* A JavaScript number that may be `NaN` (the result of `parseInt`) is
  modelled as `Option Int`, `none` standing for `NaN`.
* Ratios and averages computed with `/` on JS numbers are modelled in `ℚ`.
* A fallible effect (a `fetch`, a `localStorage` access) is modelled by an
  explicit outcome parameter; a thrown exception is an explicit
  constructor, and `try/catch` becomes a `match` on that outcome.
* Timestamps (`Date.now()`) are `Int` milliseconds.
-/

/-- `Author` entity (src/Author.js): plain record of the four fields the
constructor stores. -/
structure Author where
  name : String
  image : String
  userSince : String
  channel : String
deriving Repr, DecidableEq

/-- `SocialPost` entity (src/unnamed/part_000): the fields stored by the
constructor.  `createdAt` (construction wall-clock time) is omitted: no
claim and no embedded operation reads it. -/
structure SocialPost where
  id : String
  source : String
  thumbnail : String
  title : String
  date : String
  author : Author
  likes : Int
  dislikes : Int
deriving Repr, DecidableEq

/-- `SocialPost.getTotalEngagement`: `this.likes + this.dislikes`. -/
def SocialPost.getTotalEngagement (p : SocialPost) : Int :=
  p.likes + p.dislikes

/-- `SocialPost.getEngagementRatio`:
`total > 0 ? this.likes / total : 0`, the division taken in `ℚ`. -/
def SocialPost.getEngagementRatio (p : SocialPost) : ℚ :=
  let total := p.getTotalEngagement
  if total > 0 then (p.likes : ℚ) / (total : ℚ) else 0

/-- `SocialPost.addLike`: `this.likes++; return this.likes` — returns the
mutated post together with the returned new count. -/
def SocialPost.addLike (p : SocialPost) : SocialPost × Int :=
  let p' := { p with likes := p.likes + 1 }
  (p', p'.likes)

/-- `SocialPost.addDislike`: `this.dislikes++; return this.dislikes`. -/
def SocialPost.addDislike (p : SocialPost) : SocialPost × Int :=
  let p' := { p with dislikes := p.dislikes + 1 }
  (p', p'.dislikes)

/-- Milliseconds in a day, the divisor `1000 * 60 * 60 * 24` of
`getTimeSincePosted`. -/
def msPerDay : Nat := 1000 * 60 * 60 * 24

/-- `SocialPost.getTimeSincePosted` (src/unnamed/part_000, lines 65-75)
as a function of the elapsed time `diffTime = Math.abs(now - postDate)`
in milliseconds.  `Math.ceil(diffTime / msPerDay)` on a non-negative
number is `(diffTime + msPerDay - 1) / msPerDay` in `Nat`. -/
def SocialPost.getTimeSincePosted (elapsedMs : Nat) : String :=
  let diffDays := (elapsedMs + msPerDay - 1) / msPerDay
  if diffDays = 1 then "1 day ago"
  else if diffDays < 7 then toString diffDays ++ " days ago"
  else if diffDays < 30 then toString (diffDays / 7) ++ " weeks ago"
  else toString (diffDays / 30) ++ " months ago"

/-! ## LocalStorageService (src/LocalStorageService.js) -/

/-- Outcome of one `localStorage.getItem` call: the medium may throw, or
return `null` (`none`) or a stored string. -/
inductive ReadOutcome where
  | throws
  | value (v : Option String)
deriving Repr, DecidableEq

/-- Outcome of one `localStorage.setItem` call. -/
inductive WriteOutcome where
  | throws
  | ok
deriving Repr, DecidableEq

/-- The underlying storage medium (`localStorage`), as an arbitrary
behaviour of its two primitives. -/
structure StorageMedium where
  getItem : String → ReadOutcome
  setItem : String → String → WriteOutcome

/-- `this.LIKES_KEY`. -/
def LIKES_KEY : String := "mockstagram_likes"

/-- `this.DISLIKES_KEY`. -/
def DISLIKES_KEY : String := "mockstagram_dislikes"

/-- Leading decimal digits of a character list, `none` when there are
none. -/
def parseLeadingDigits (cs : List Char) : Option Nat :=
  let ds := cs.takeWhile Char.isDigit
  if ds.isEmpty then none
  else some (ds.foldl (fun a c => a * 10 + (c.toNat - Char.toNat (Char.ofNat 48))) 0)

/-- JavaScript `parseInt(s, 10)`: skip leading whitespace, optional sign,
longest digit prefix; `none` models the `NaN` result. -/
def jsParseInt (s : String) : Option Int :=
  let cs := s.data.dropWhile Char.isWhitespace
  match cs with
  | '-' :: rest => (parseLeadingDigits rest).map (fun n => -(n : Int))
  | '+' :: rest => (parseLeadingDigits rest).map (fun n => (n : Int))
  | _ => (parseLeadingDigits cs).map (fun n => (n : Int))

/-- `LocalStorageService.getLikes`: read `` `${LIKES_KEY}_${postId}` ``;
a thrown read or a falsy stored value (`null` or the empty string) yields
`0`, otherwise `parseInt(likes, 10)`. -/
def LocalStorageService.getLikes (m : StorageMedium) (postId : String) : Option Int :=
  match m.getItem (LIKES_KEY ++ "_" ++ postId) with
  | .throws => some 0
  | .value none => some 0
  | .value (some s) => if s = "" then some 0 else jsParseInt s

/-- `LocalStorageService.setLikes`: write `count.toString()`; a thrown
write is caught and reported as `false`. -/
def LocalStorageService.setLikes (m : StorageMedium) (postId : String) (count : Int) : Bool :=
  match m.setItem (LIKES_KEY ++ "_" ++ postId) (toString count) with
  | .throws => false
  | .ok => true

/-- `LocalStorageService.getDislikes`, symmetric to `getLikes`. -/
def LocalStorageService.getDislikes (m : StorageMedium) (postId : String) : Option Int :=
  match m.getItem (DISLIKES_KEY ++ "_" ++ postId) with
  | .throws => some 0
  | .value none => some 0
  | .value (some s) => if s = "" then some 0 else jsParseInt s

/-- `LocalStorageService.setDislikes`, symmetric to `setLikes`. -/
def LocalStorageService.setDislikes (m : StorageMedium) (postId : String) (count : Int) : Bool :=
  match m.setItem (DISLIKES_KEY ++ "_" ++ postId) (toString count) with
  | .throws => false
  | .ok => true

/-! ## SocialInteractionService (src/SocialInteractionService.js) -/

/-- Behaviour of the injected store's write call
(`this.localStorageService.setLikes(post.id, newCount)`) as observed by
`likePost`/`dislikePost`: it returns a boolean or throws. -/
inductive StoreWriteOutcome where
  | ok (saved : Bool)
  | throws
deriving Repr, DecidableEq

/-- The `{success, newCount, message}` object returned by
`likePost`/`dislikePost`. -/
structure InteractionResult where
  success : Bool
  newCount : Int
  message : String
deriving Repr, DecidableEq

/-- `SocialInteractionService.likePost` (lines 13-42): `post.addLike()`,
then the store write; on `saved = false` the increment is rolled back
(`post.likes--`); a thrown write lands in the `catch` block, which
returns the current `post.likes` unchanged (no rollback).  Returns the
post as left in memory together with the result object. -/
def SocialInteractionService.likePost (post : SocialPost) (write : StoreWriteOutcome) :
    SocialPost × InteractionResult :=
  let (post1, newLikeCount) := post.addLike
  match write with
  | .ok true => (post1, ⟨true, newLikeCount, "Post liked successfully!"⟩)
  | .ok false =>
      let post2 := { post1 with likes := post1.likes - 1 }
      (post2, ⟨false, post2.likes, "Failed to save like preference"⟩)
  | .throws => (post1, ⟨false, post1.likes, "Error processing like"⟩)

/-- `SocialInteractionService.dislikePost` (lines 47-76), symmetric over
`dislikes`. -/
def SocialInteractionService.dislikePost (post : SocialPost) (write : StoreWriteOutcome) :
    SocialPost × InteractionResult :=
  let (post1, newDislikeCount) := post.addDislike
  match write with
  | .ok true => (post1, ⟨true, newDislikeCount, "Post disliked successfully!"⟩)
  | .ok false =>
      let post2 := { post1 with dislikes := post1.dislikes - 1 }
      (post2, ⟨false, post2.dislikes, "Failed to save dislike preference"⟩)
  | .throws => (post1, ⟨false, post1.dislikes, "Error processing dislike"⟩)

/-- The stats object of `getEngagementStats`. -/
structure EngagementStats where
  totalLikes : Int
  totalDislikes : Int
  totalEngagement : Int
  averageEngagement : ℚ
  mostLikedPost : Option SocialPost
  mostEngagedPost : Option SocialPost
deriving Repr, DecidableEq

/-- The stats object as initialised at the top of `getEngagementStats`. -/
def zeroStats : EngagementStats :=
  ⟨0, 0, 0, 0, none, none⟩

/-- Loop state of `getEngagementStats`: the stats object under
construction plus the `maxLikes` / `maxEngagement` locals. -/
structure StatsAcc where
  stats : EngagementStats
  maxLikes : Int
  maxEngagement : Int

/-- One iteration of the `posts.forEach` in `getEngagementStats`
(lines 178-194). -/
def statsStep (acc : StatsAcc) (post : SocialPost) : StatsAcc :=
  let engagement := post.getTotalEngagement
  let s := { acc.stats with
    totalLikes := acc.stats.totalLikes + post.likes
    totalDislikes := acc.stats.totalDislikes + post.dislikes
    totalEngagement := acc.stats.totalEngagement + engagement }
  let acc1 : StatsAcc :=
    if post.likes > acc.maxLikes then
      ⟨{ s with mostLikedPost := some post }, post.likes, acc.maxEngagement⟩
    else ⟨s, acc.maxLikes, acc.maxEngagement⟩
  if engagement > acc1.maxEngagement then
    ⟨{ acc1.stats with mostEngagedPost := some post }, acc1.maxLikes, engagement⟩
  else acc1

/-- `SocialInteractionService.getEngagementStats` (lines 161-199).  The
argument is `Option`al, `none` modelling a null/undefined `posts`
(`if (!posts || posts.length === 0) return stats`). -/
def SocialInteractionService.getEngagementStats (posts : Option (List SocialPost)) :
    EngagementStats :=
  match posts with
  | none => zeroStats
  | some l =>
    if l.isEmpty then zeroStats
    else
      let acc := l.foldl statsStep ⟨zeroStats, 0, 0⟩
      { acc.stats with
          averageEngagement := (acc.stats.totalEngagement : ℚ) / (l.length : ℚ) }

/-! ## SocialPostRepository (src/fox-gallery-fixed.js, repository part) -/

/-- One raw record of the feed payload's `photos` array.  `likes` and
`dislikes` are `Option`al: `none` models an absent (or otherwise falsy)
field, which `photoData.likes || 0` turns into `0`. -/
structure PhotoData where
  id : String
  source : String
  thumbnail : String
  title : String
  date : String
  author : Author
  likes : Option Int
  dislikes : Option Int
deriving Repr, DecidableEq

/-- The `new SocialPost(...)` call in `fetchAll`'s `data.photos.map`. -/
def SocialPost.ofPhotoData (d : PhotoData) : SocialPost :=
  { id := d.id, source := d.source, thumbnail := d.thumbnail, title := d.title,
    date := d.date, author := d.author,
    likes := d.likes.getD 0, dislikes := d.dislikes.getD 0 }

/-- Repository state: the single cache slot (`this.cache`,
`this.cacheTimestamp`), both initialised to `null`. -/
structure SocialPostRepository where
  cache : Option (List SocialPost)
  cacheTimestamp : Option Int
deriving Repr, DecidableEq

/-- `this.cacheExpiry = 5 * 60 * 1000` (5 minutes in milliseconds). -/
def cacheExpiry : Int := 5 * 60 * 1000

/-- `SocialPostRepository.isCacheValid` (lines 531-535):
`this.cache && this.cacheTimestamp && (Date.now() - this.cacheTimestamp) < this.cacheExpiry`.
A stored timestamp `0` is falsy in JavaScript, hence the `t ≠ 0` check. -/
def SocialPostRepository.isCacheValid (r : SocialPostRepository) (now : Int) : Bool :=
  match r.cache, r.cacheTimestamp with
  | some _, some t => decide (t ≠ 0) && decide (now - t < cacheExpiry)
  | _, _ => false

/-- Outcome of the remote part of `fetchAll`, up to the `photos` check:
`throws msg` models a network rejection, a non-ok HTTP status (whose
`throw new Error` carries `msg`) or a JSON parse failure; `payload none`
a body whose `photos` is missing or not an array; `payload (some l)` a
well-formed body. -/
inductive FetchAllOutcome where
  | throws (msg : String)
  | payload (photos : Option (List PhotoData))
deriving Repr

/-- `SocialPostRepository.fetchAll` (lines 412-456): serve a valid cache
without consulting `remote`; otherwise validate and map the payload,
update the cache slot, or wrap any thrown error as
`Failed to fetch social posts: ...` and leave the state untouched.
Returns the result together with the post-call repository state. -/
def SocialPostRepository.fetchAll (r : SocialPostRepository) (now : Int)
    (remote : FetchAllOutcome) : Except String (List SocialPost) × SocialPostRepository :=
  if r.isCacheValid now then
    (.ok (r.cache.getD []), r)
  else
    match remote with
    | .throws msg => (.error ("Failed to fetch social posts: " ++ msg), r)
    | .payload none =>
        (.error ("Failed to fetch social posts: " ++
          "Invalid data format: photos array not found"), r)
    | .payload (some photos) =>
        let posts := photos.map SocialPost.ofPhotoData
        (.ok posts, { cache := some posts, cacheTimestamp := some now })

/-- A parsed response body of the randomized image source. -/
structure FoxData where
  image : String
deriving Repr, DecidableEq

/-- The fixed synthetic author used by `fetchRandomFoxPosts`. -/
def randomFoxAuthor : Author :=
  { name := "RandomFox API",
    image := "https://randomfox.ca/images/randomfox-logo.png",
    userSince := "2020", channel := "Fox Photos" }

/-- The `new SocialPost(...)` built for a successful randomized fetch at
loop index `i`, where `t` is `Date.now()` at that iteration and `d` the
date string `new Date().toISOString().split('T')[0]`.  `likes` and
`dislikes` are the constructor's defaults `0`. -/
def foxPost (i : Nat) (t : Int) (d : String) (fox : FoxData) : SocialPost :=
  { id := "fox-" ++ toString t ++ "-" ++ toString i,
    source := fox.image, thumbnail := fox.image,
    title := "Random Fox Photo #" ++ toString (i + 1) ++ " 🦊",
    date := d, author := randomFoxAuthor,
    likes := 0, dislikes := 0 }

/-- The `for` loop of `fetchRandomFoxPosts` (lines 465-491): `responses`
lists, for each of the `count` iterations in order, `none` when that
iteration's response was not ok (the iteration logs a warning and
`continue`s) and `some foxData` otherwise; `nowAt i` / `dateAt i` give
`Date.now()` and the date string at iteration `i`. -/
def foxLoop (nowAt : Nat → Int) (dateAt : Nat → String) :
    Nat → List (Option FoxData) → List SocialPost
  | _, [] => []
  | i, none :: rest => foxLoop nowAt dateAt (i + 1) rest
  | i, some fox :: rest =>
      foxPost i (nowAt i) (dateAt i) fox :: foxLoop nowAt dateAt (i + 1) rest

/-- `SocialPostRepository.fetchRandomFoxPosts` (lines 461-498): run the
batch loop; the method body never mentions `this.cache` or
`this.cacheTimestamp`, so the repository state passes through as-is. -/
def SocialPostRepository.fetchRandomFoxPosts (r : SocialPostRepository)
    (responses : List (Option FoxData)) (nowAt : Nat → Int) (dateAt : Nat → String) :
    List SocialPost × SocialPostRepository :=
  (foxLoop nowAt dateAt 0 responses, r)

/-! ## Concrete values used by witnesses and counterexamples -/

/-- A concrete post with zero counters. -/
def post0 : SocialPost :=
  { id := "1", source := "a.png", thumbnail := "a.png", title := "T",
    date := "2024-01-01",
    author := { name := "Ann", image := "", userSince := "2020", channel := "c" },
    likes := 0, dislikes := 0 }

/-- A storage medium whose every primitive throws. -/
def badMedium : StorageMedium :=
  ⟨fun _ => .throws, fun _ _ => .throws⟩

/-! ## Claims about the interaction service's like/dislike path -/

/-- C1: for every post, `likePost` with a store write returning `true`
increments `post.likes` by exactly 1 and returns `success = true` with
`newCount` equal to the incremented value; with a store write returning
`false`, `post.likes` equals its pre-call value after the call (the
increment is rolled back) and the result is `success = false` with
`newCount` equal to the restored value. -/
theorem likePost_write_contract (post : SocialPost) :
    (SocialInteractionService.likePost post (.ok true)).1.likes = post.likes + 1 ∧
    (SocialInteractionService.likePost post (.ok true)).2.success = true ∧
    (SocialInteractionService.likePost post (.ok true)).2.newCount = post.likes + 1 ∧
    (SocialInteractionService.likePost post (.ok false)).1.likes = post.likes ∧
    (SocialInteractionService.likePost post (.ok false)).2.success = false ∧
    (SocialInteractionService.likePost post (.ok false)).2.newCount = post.likes := by
  refine ⟨?_, ?_, ?_, ?_, ?_, ?_⟩ <;>
    simp [SocialInteractionService.likePost, SocialPost.addLike]

/-- C2 counterexample: on a concrete post with `likes = 0`, a store write
that throws is caught, but the failure result's count is the
already-incremented value `1`, not the pre-mutation value `0`: the
`catch` block returns the current `post.likes` without rolling the
increment back. -/
theorem likePost_catch_cex :
    (SocialInteractionService.likePost post0 .throws).2.success = false ∧
    (SocialInteractionService.likePost post0 .throws).2.newCount ≠ post0.likes ∧
    (SocialInteractionService.likePost post0 .throws).2.newCount = post0.likes + 1 := by
  decide

/-- C2 (amended): for every post on which `likePost` or `dislikePost`
encounters a thrown store write, the method catches it and returns a
failure result whose count equals the counter's value at the time of the
fault — the already-incremented value, since the `catch` path performs no
rollback — and the exception never propagates (the embedded methods are
total functions returning a result object on every outcome). -/
theorem likePost_catch_reports_current_count (post : SocialPost) :
    (SocialInteractionService.likePost post .throws).2.success = false ∧
    (SocialInteractionService.likePost post .throws).2.newCount = post.likes + 1 ∧
    (SocialInteractionService.likePost post .throws).1.likes = post.likes + 1 ∧
    (SocialInteractionService.dislikePost post .throws).2.success = false ∧
    (SocialInteractionService.dislikePost post .throws).2.newCount = post.dislikes + 1 ∧
    (SocialInteractionService.dislikePost post .throws).1.dislikes = post.dislikes + 1 := by
  refine ⟨?_, ?_, ?_, ?_, ?_, ?_⟩ <;>
    simp [SocialInteractionService.likePost, SocialInteractionService.dislikePost,
      SocialPost.addLike, SocialPost.addDislike]

/-! ## Claims about the domain entities -/

/-- Ceiling division by `msPerDay` of an exact number of days gives that
number of days back. -/
theorem ceil_exact_days (n : Nat) : (n * msPerDay + msPerDay - 1) / msPerDay = n := by
  simp only [msPerDay]
  omega

/-- C7: `getTimeSincePosted` returns "1 day ago" at exactly 1 elapsed
day, "6 days ago" at 6 elapsed days, "1 weeks ago" at 7 elapsed days
(`floor(7/7) = 1`), "1 months ago" at 30 elapsed days
(`floor(30/30) = 1`); in general an exact number `n` of elapsed days is
bucketed as: 1 day; `"<n> days ago"` below 7; `"<n> weeks ago"`
(`floor (n / 7)`) below 30; else `"<n> months ago"` (`floor (n / 30)`). -/
theorem getTimeSincePosted_buckets (n : Nat) :
    SocialPost.getTimeSincePosted (n * msPerDay) =
      (if n = 1 then "1 day ago"
       else if n < 7 then toString n ++ " days ago"
       else if n < 30 then toString (n / 7) ++ " weeks ago"
       else toString (n / 30) ++ " months ago") ∧
    SocialPost.getTimeSincePosted (1 * msPerDay) = "1 day ago" ∧
    SocialPost.getTimeSincePosted (6 * msPerDay) = "6 days ago" ∧
    SocialPost.getTimeSincePosted (7 * msPerDay) = "1 weeks ago" ∧
    SocialPost.getTimeSincePosted (30 * msPerDay) = "1 months ago" := by
  refine ⟨?_, by decide, by decide, by decide, by decide⟩
  simp only [SocialPost.getTimeSincePosted, ceil_exact_days]

/-- C8: for every post, `getTotalEngagement` equals `likes + dislikes`,
and `getEngagementRatio` equals `likes / totalEngagement` when the total
is positive and `0` when the total is `0` — the guard keeps the division
branch away from a zero divisor. -/
theorem engagement_derived_values (p : SocialPost) :
    p.getTotalEngagement = p.likes + p.dislikes ∧
    (0 < p.getTotalEngagement →
      p.getEngagementRatio = (p.likes : ℚ) / ((p.getTotalEngagement : Int) : ℚ)) ∧
    (p.getTotalEngagement = 0 → p.getEngagementRatio = 0) := by
  refine ⟨rfl, fun h => ?_, fun h => ?_⟩
  · simp [SocialPost.getEngagementRatio, h]
  · simp [SocialPost.getEngagementRatio, h]

/-- C8 witness: the theorem applied at a concrete zero-engagement post. -/
theorem engagement_derived_values_witness :
    post0.getTotalEngagement = 0 ∧ post0.getEngagementRatio = 0 :=
  ⟨by decide, (engagement_derived_values post0).2.2 (by decide)⟩

/-! ## Claims about the store -/

/-- C9: for every storage medium behaviour and post id, the store's
counter reads return `0` on a thrown read and on an absent key, and the
counter writes return `false` on a thrown write; every outcome of the
medium is matched by a plain returned value, so no exception escapes any
of these operations (each embedded operation is a total function). -/
theorem store_fault_tolerance (m : StorageMedium) (postId : String) :
    (m.getItem (LIKES_KEY ++ "_" ++ postId) = .throws →
      LocalStorageService.getLikes m postId = some 0) ∧
    (m.getItem (LIKES_KEY ++ "_" ++ postId) = .value none →
      LocalStorageService.getLikes m postId = some 0) ∧
    (m.getItem (DISLIKES_KEY ++ "_" ++ postId) = .throws →
      LocalStorageService.getDislikes m postId = some 0) ∧
    (m.getItem (DISLIKES_KEY ++ "_" ++ postId) = .value none →
      LocalStorageService.getDislikes m postId = some 0) ∧
    (∀ c : Int, m.setItem (LIKES_KEY ++ "_" ++ postId) (toString c) = .throws →
      LocalStorageService.setLikes m postId c = false) ∧
    (∀ c : Int, m.setItem (DISLIKES_KEY ++ "_" ++ postId) (toString c) = .throws →
      LocalStorageService.setDislikes m postId c = false) := by
  refine ⟨fun h => ?_, fun h => ?_, fun h => ?_, fun h => ?_,
    fun c h => ?_, fun c h => ?_⟩ <;>
    simp [LocalStorageService.getLikes, LocalStorageService.getDislikes,
      LocalStorageService.setLikes, LocalStorageService.setDislikes, h]

/-- C9 witness: the theorem applied at an always-throwing medium. -/
theorem store_fault_tolerance_witness :
    LocalStorageService.getLikes badMedium "p" = some 0 ∧
    LocalStorageService.setLikes badMedium "p" 3 = false :=
  ⟨(store_fault_tolerance badMedium "p").1 rfl,
   (store_fault_tolerance badMedium "p").2.2.2.2.1 3 rfl⟩

/-! ## Claims about the repository -/

/-- C3: a fresh `fetchAll` caches the mapped posts with the fetch time;
a second call less than 5 minutes later returns the cached sequence for
every remote outcome (no new remote call) and leaves the cache record
unchanged; a second call 5 minutes or more later consults the remote
again and replaces the cache record with the new sequence and the current
timestamp. -/
theorem fetchAll_cache_ttl (r : SocialPostRepository) (t0 t1 : Int)
    (photos : List PhotoData) (h0 : r.isCacheValid t0 = false) (ht0 : t0 ≠ 0) :
    r.fetchAll t0 (.payload (some photos)) =
      (.ok (photos.map SocialPost.ofPhotoData),
       ⟨some (photos.map SocialPost.ofPhotoData), some t0⟩) ∧
    (t1 - t0 < cacheExpiry → ∀ remote : FetchAllOutcome,
      SocialPostRepository.fetchAll
          ⟨some (photos.map SocialPost.ofPhotoData), some t0⟩ t1 remote =
        (.ok (photos.map SocialPost.ofPhotoData),
         ⟨some (photos.map SocialPost.ofPhotoData), some t0⟩)) ∧
    (cacheExpiry ≤ t1 - t0 → ∀ photos2 : List PhotoData,
      SocialPostRepository.fetchAll
          ⟨some (photos.map SocialPost.ofPhotoData), some t0⟩ t1 (.payload (some photos2)) =
        (.ok (photos2.map SocialPost.ofPhotoData),
         ⟨some (photos2.map SocialPost.ofPhotoData), some t1⟩)) := by
  refine ⟨?_, fun hlt remote => ?_, fun hge photos2 => ?_⟩
  · simp [SocialPostRepository.fetchAll, h0]
  · have hv : SocialPostRepository.isCacheValid
        ⟨some (photos.map SocialPost.ofPhotoData), some t0⟩ t1 = true := by
      simp [SocialPostRepository.isCacheValid, ht0, hlt]
    simp [SocialPostRepository.fetchAll, hv]
  · have hnlt : ¬ (t1 - t0 < cacheExpiry) := not_lt.mpr hge
    have hv : SocialPostRepository.isCacheValid
        ⟨some (photos.map SocialPost.ofPhotoData), some t0⟩ t1 = false := by
      simp [SocialPostRepository.isCacheValid, hnlt]
    simp [SocialPostRepository.fetchAll, hv]

/-- C3 witness: the theorem's within-TTL conjunct at a concrete state,
with a remote outcome that would throw: the cached (empty) sequence is
served and the record kept. -/
theorem fetchAll_cache_ttl_witness :
    SocialPostRepository.fetchAll ⟨some [], some 1000⟩ 2000 (.throws "boom") =
      (.ok [], ⟨some [], some 1000⟩) := by
  have h := (fetchAll_cache_ttl ⟨none, none⟩ 1000 2000 [] (by decide) (by decide)).2.1
    (by decide) (.throws "boom")
  simpa using h

/-- C4: when the cache is invalid and the payload lacks a `photos` array,
`fetchAll` fails with the data-format message wrapped in the
repository-level `Failed to fetch social posts:` error, the cache record
is left unchanged, it is still invalid at every later time, and a
subsequent call therefore performs the network fetch again (a later
well-formed payload is fetched and cached). -/
theorem fetchAll_missing_photos (r : SocialPostRepository) (now now2 : Int)
    (h : r.isCacheValid now = false) (hle : now ≤ now2) :
    r.fetchAll now (.payload none) =
      (.error ("Failed to fetch social posts: " ++
        "Invalid data format: photos array not found"), r) ∧
    r.isCacheValid now2 = false ∧
    (∀ photos : List PhotoData,
      r.fetchAll now2 (.payload (some photos)) =
        (.ok (photos.map SocialPost.ofPhotoData),
         ⟨some (photos.map SocialPost.ofPhotoData), some now2⟩)) := by
  have h2 : r.isCacheValid now2 = false := by
    cases hc : r.cache with
    | none => simp [SocialPostRepository.isCacheValid, hc]
    | some l =>
      cases hts : r.cacheTimestamp with
      | none => simp [SocialPostRepository.isCacheValid, hc, hts]
      | some t =>
        simp [SocialPostRepository.isCacheValid, hc, hts, cacheExpiry] at h ⊢
        omega
  refine ⟨?_, h2, fun photos => ?_⟩
  · simp [SocialPostRepository.fetchAll, h]
  · simp [SocialPostRepository.fetchAll, h2]

/-- C4 witness: the theorem's failure conjunct at the initial repository
state. -/
theorem fetchAll_missing_photos_witness :
    SocialPostRepository.fetchAll ⟨none, none⟩ 5 (.payload none) =
      (.error ("Failed to fetch social posts: " ++
        "Invalid data format: photos array not found"),
       (⟨none, none⟩ : SocialPostRepository)) :=
  (fetchAll_missing_photos ⟨none, none⟩ 5 10 (by decide) (by decide)).1

/-- The batch loop of `fetchRandomFoxPosts`, started at index `k`, keeps
exactly the successful responses, each wrapped as the synthetic post of
its own index and per-iteration clock. -/
theorem foxLoop_eq (nowAt : Nat → Int) (dateAt : Nat → String) (k : Nat)
    (responses : List (Option FoxData)) :
    foxLoop nowAt dateAt k responses =
      (responses.enumFrom k).filterMap
        (fun q => q.2.map (foxPost q.1 (nowAt q.1) (dateAt q.1))) := by
  induction responses generalizing k with
  | nil => simp [foxLoop]
  | cons hd rest ih =>
    cases hd with
    | none => simp [foxLoop, List.enumFrom, ih]
    | some fox => simp [foxLoop, List.enumFrom, ih]

/-- C6: `fetchRandomFoxPosts` runs the whole batch sequentially: its
result is exactly the successful responses in order, each made into a
synthetic post (so a non-success response is skipped and does not abort
the batch — later posts are still returned); a synthetic post's id is
`"fox-" + fetch-time + "-" + index` and its author the fixed synthetic
author; and the repository's cache record is neither read nor written
(the state passes through unchanged, whatever it is). -/
theorem fetchRandomFoxPosts_batch (r : SocialPostRepository)
    (responses : List (Option FoxData)) (nowAt : Nat → Int) (dateAt : Nat → String)
    (i : Nat) (t : Int) (d : String) (fox : FoxData) :
    r.fetchRandomFoxPosts responses nowAt dateAt =
      (responses.enum.filterMap
        (fun q => q.2.map (foxPost q.1 (nowAt q.1) (dateAt q.1))), r) ∧
    (foxPost i t d fox).id = "fox-" ++ toString t ++ "-" ++ toString i ∧
    (foxPost i t d fox).author = randomFoxAuthor := by
  refine ⟨?_, rfl, rfl⟩
  simp [SocialPostRepository.fetchRandomFoxPosts, foxLoop_eq, List.enum]

/-! ## Characterising the "most liked" / "most engaged" scan -/

/-- Running maximum of a weight `f` over a list, seeded at `m` — the
value the `maxLikes` / `maxEngagement` local holds after the loop. -/
def runMax (f : SocialPost → Int) (m : Int) (l : List SocialPost) : Int :=
  l.foldl (fun a p => max a (f p)) m

/-- The strict-greater scan of `getEngagementStats` in isolation: the
running `(maximum, winner)` pair, updated only on `f p > max`. -/
def scanMax (f : SocialPost → Int) (acc : Int × Option SocialPost)
    (l : List SocialPost) : Int × Option SocialPost :=
  l.foldl (fun a p => if f p > a.1 then (f p, some p) else a) acc

theorem le_runMax (f : SocialPost → Int) (m : Int) (l : List SocialPost) :
    m ≤ runMax f m l := by
  induction l generalizing m with
  | nil => simp [runMax]
  | cons p rest ih =>
    calc m ≤ max m (f p) := le_max_left _ _
    _ ≤ runMax f (max m (f p)) rest := ih _
    _ = runMax f m (p :: rest) := by simp [runMax]

/-- The strict-greater scan computes the running maximum, and its winner
is the first element attaining that maximum — kept only when the maximum
strictly exceeds the seed, otherwise the seeded winner survives. -/
theorem scanMax_eq (f : SocialPost → Int) (l : List SocialPost) (m : Int)
    (best : Option SocialPost) :
    scanMax f (m, best) l =
      (runMax f m l,
       if m < runMax f m l
       then l.find? (fun p => decide (runMax f m l ≤ f p))
       else best) := by
  induction l generalizing m best with
  | nil => simp [scanMax, runMax]
  | cons p rest ih =>
    have hrm : runMax f m (p :: rest) = runMax f (max m (f p)) rest := by
      simp [runMax]
    by_cases h : f p > m
    · have hmax : max m (f p) = f p := max_eq_right (le_of_lt h)
      have hfple : f p ≤ runMax f (f p) rest := le_runMax f (f p) rest
      have hscan : scanMax f (m, best) (p :: rest) = scanMax f (f p, some p) rest := by
        simp [scanMax, h]
      rw [hscan, ih, hrm, hmax]
      have hmlt : m < runMax f (f p) rest := lt_of_lt_of_le h hfple
      rw [if_pos hmlt]
      by_cases h2 : f p < runMax f (f p) rest
      · rw [if_pos h2]
        have hnle : ¬ (runMax f (f p) rest ≤ f p) := not_le_of_lt h2
        simp [List.find?_cons, hnle]
      · rw [if_neg h2]
        have hle : runMax f (f p) rest ≤ f p := le_of_not_lt h2
        simp [List.find?_cons, hle]
    · have hple : f p ≤ m := le_of_not_lt h
      have hmax : max m (f p) = m := max_eq_left hple
      have hscan : scanMax f (m, best) (p :: rest) = scanMax f (m, best) rest := by
        simp [scanMax, h]
      rw [hscan, ih, hrm, hmax]
      by_cases h2 : m < runMax f m rest
      · rw [if_pos h2, if_pos h2]
        have hnle : ¬ (runMax f m rest ≤ f p) :=
          not_le_of_lt (lt_of_le_of_lt hple h2)
        simp [List.find?_cons, hnle]
      · rw [if_neg h2, if_neg h2]

/-- One `forEach` iteration, projected onto `(maxLikes, mostLikedPost)`:
it is exactly one step of the strict-greater scan on `likes`. -/
theorem statsStep_likes (acc : StatsAcc) (p : SocialPost) :
    ((statsStep acc p).maxLikes, (statsStep acc p).stats.mostLikedPost) =
      (if p.likes > acc.maxLikes then (p.likes, some p)
       else (acc.maxLikes, acc.stats.mostLikedPost)) := by
  simp only [statsStep]
  split_ifs <;> simp

/-- One `forEach` iteration, projected onto `(maxEngagement,
mostEngagedPost)`: one step of the strict-greater scan on engagement. -/
theorem statsStep_engagement (acc : StatsAcc) (p : SocialPost) :
    ((statsStep acc p).maxEngagement, (statsStep acc p).stats.mostEngagedPost) =
      (if p.getTotalEngagement > acc.maxEngagement
       then (p.getTotalEngagement, some p)
       else (acc.maxEngagement, acc.stats.mostEngagedPost)) := by
  simp only [statsStep]
  split_ifs <;> simp

/-- The whole `forEach`, projected onto the two `(maximum, winner)`
pairs, agrees with the isolated scans. -/
theorem statsFold_most (l : List SocialPost) (acc : StatsAcc) :
    ((l.foldl statsStep acc).maxLikes, (l.foldl statsStep acc).stats.mostLikedPost) =
      scanMax SocialPost.likes (acc.maxLikes, acc.stats.mostLikedPost) l ∧
    ((l.foldl statsStep acc).maxEngagement,
      (l.foldl statsStep acc).stats.mostEngagedPost) =
      scanMax SocialPost.getTotalEngagement
        (acc.maxEngagement, acc.stats.mostEngagedPost) l := by
  induction l generalizing acc with
  | nil => simp [scanMax]
  | cons p rest ih =>
    refine ⟨?_, ?_⟩
    · have h1 := (ih (statsStep acc p)).1
      rw [List.foldl_cons, h1]
      have h2 := statsStep_likes acc p
      simp only [scanMax, List.foldl_cons]
      rw [← h2]
    · have h1 := (ih (statsStep acc p)).2
      rw [List.foldl_cons, h1]
      have h2 := statsStep_engagement acc p
      simp only [scanMax, List.foldl_cons]
      rw [← h2]

/-- Maximum likes value reached by the `maxLikes` local (seeded at 0). -/
def maxLikesOf (l : List SocialPost) : Int := runMax SocialPost.likes 0 l

/-- Maximum engagement reached by the `maxEngagement` local (seeded at 0). -/
def maxEngagementOf (l : List SocialPost) : Int :=
  runMax SocialPost.getTotalEngagement 0 l

/-- The winners reported by `getEngagementStats`: when the respective
maximum is positive, the first post in input order attaining it; when it
is `0` (in particular when every post is at zero), `none`. -/
theorem getEngagementStats_winners (l : List SocialPost) :
    (SocialInteractionService.getEngagementStats (some l)).mostLikedPost =
      (if 0 < maxLikesOf l
       then l.find? (fun p => decide (maxLikesOf l ≤ p.likes))
       else none) ∧
    (SocialInteractionService.getEngagementStats (some l)).mostEngagedPost =
      (if 0 < maxEngagementOf l
       then l.find? (fun p => decide (maxEngagementOf l ≤ p.getTotalEngagement))
       else none) := by
  cases l with
  | nil =>
    simp [SocialInteractionService.getEngagementStats, zeroStats, maxLikesOf,
      maxEngagementOf, runMax]
  | cons p rest =>
    have hfold := statsFold_most (p :: rest) ⟨zeroStats, 0, 0⟩
    have h1 := congrArg Prod.snd hfold.1
    have h2 := congrArg Prod.snd hfold.2
    rw [scanMax_eq] at h1
    rw [scanMax_eq] at h2
    simp only at h1 h2
    constructor
    · simpa [SocialInteractionService.getEngagementStats, zeroStats, maxLikesOf]
        using h1
    · simpa [SocialInteractionService.getEngagementStats, zeroStats, maxEngagementOf]
        using h2

/-- Weights all zero over the list keep the running maximum at its `0`
seed. -/
theorem runMax_all_zero (f : SocialPost → Int) (l : List SocialPost)
    (h : ∀ p ∈ l, f p = 0) : runMax f 0 l = 0 := by
  induction l with
  | nil => rfl
  | cons p rest ih =>
    have hp : f p = 0 := h p (by simp)
    have hstep : runMax f 0 (p :: rest) = runMax f 0 rest := by
      simp [runMax, hp]
    rw [hstep]
    exact ih (fun q hq => h q (by simp [hq]))

/-! ## Claims about `getEngagementStats` -/

/-- Two concrete posts with zero likes each, distinct ids. -/
def tiePostA : SocialPost := { post0 with id := "a" }

/-- Companion to `tiePostA`. -/
def tiePostB : SocialPost := { post0 with id := "b" }

/-- Two concrete posts tying at 5 likes each, distinct ids. -/
def tiePostC : SocialPost := { post0 with id := "c", likes := 5 }

/-- Companion to `tiePostC`. -/
def tiePostD : SocialPost := { post0 with id := "d", likes := 5 }

/-- C5 counterexample: two posts tying for the maximum likes (both at 0)
do not make the first of them `mostLikedPost` — the winner stays `null`,
because the running maximum starts at `0` and the comparison is
strict `>`. -/
theorem engagementStats_zero_tie_cex :
    tiePostA.likes = 0 ∧ tiePostB.likes = 0 ∧
    (SocialInteractionService.getEngagementStats
        (some [tiePostA, tiePostB])).mostLikedPost ≠ some tiePostA := by
  decide

/-- C5 (amended): `engagementStats` on the absent (`none`) and on the
empty list returns all-zero totals and average with null winners; and
whenever the maximum likes (resp. maximum engagement) over the list is
positive — in particular when two or more posts tie for it — the winner
is the first post in input order attaining that maximum, since the
comparison is strict `>`; at maximum `0` the winner is `null` instead. -/
theorem engagementStats_empty_and_ties (l : List SocialPost) :
    SocialInteractionService.getEngagementStats none =
      ⟨0, 0, 0, 0, none, none⟩ ∧
    SocialInteractionService.getEngagementStats (some []) =
      ⟨0, 0, 0, 0, none, none⟩ ∧
    (0 < maxLikesOf l →
      (SocialInteractionService.getEngagementStats (some l)).mostLikedPost =
        l.find? (fun p => decide (maxLikesOf l ≤ p.likes))) ∧
    (0 < maxEngagementOf l →
      (SocialInteractionService.getEngagementStats (some l)).mostEngagedPost =
        l.find? (fun p => decide (maxEngagementOf l ≤ p.getTotalEngagement))) := by
  refine ⟨rfl, rfl, fun h => ?_, fun h => ?_⟩
  · rw [(getEngagementStats_winners l).1, if_pos h]
  · rw [(getEngagementStats_winners l).2, if_pos h]

/-- C5 witness: on two posts tying at 5 likes, the first is selected. -/
theorem engagementStats_ties_witness :
    (SocialInteractionService.getEngagementStats
        (some [tiePostC, tiePostD])).mostLikedPost = some tiePostC := by
  have h := (engagementStats_empty_and_ties [tiePostC, tiePostD]).2.2.1 (by decide)
  rw [h]
  decide

/-- C10: for every non-empty list in which every post has zero likes,
`getEngagementStats` returns `mostLikedPost = none` — the strict `>`
starts from a maximum of `0`, so a zero-likes post is never selected;
likewise `mostEngagedPost = none` whenever every post has zero total
engagement, even though the input is non-empty. -/
theorem engagementStats_all_zero_null (l : List SocialPost) (_hne : l ≠ []) :
    ((∀ p ∈ l, p.likes = 0) →
      (SocialInteractionService.getEngagementStats (some l)).mostLikedPost = none) ∧
    ((∀ p ∈ l, p.getTotalEngagement = 0) →
      (SocialInteractionService.getEngagementStats (some l)).mostEngagedPost = none) := by
  constructor
  · intro hz
    rw [(getEngagementStats_winners l).1]
    have hm : maxLikesOf l = 0 := runMax_all_zero _ _ hz
    simp [hm]
  · intro hz
    rw [(getEngagementStats_winners l).2]
    have hm : maxEngagementOf l = 0 := runMax_all_zero _ _ hz
    simp [hm]

/-- C10 witness: a one-element list at zero likes and zero engagement. -/
theorem engagementStats_all_zero_null_witness :
    (SocialInteractionService.getEngagementStats
        (some [tiePostA])).mostLikedPost = none ∧
    (SocialInteractionService.getEngagementStats
        (some [tiePostA])).mostEngagedPost = none :=
  ⟨(engagementStats_all_zero_null [tiePostA] (by decide)).1 (by decide),
   (engagementStats_all_zero_null [tiePostA] (by decide)).2 (by decide)⟩
